import Mathlib

/-!
Shallow embedding of the ffmpeg video-processing server (`server.js` and the
earlier iteration of the same server shipped alongside it).  The server keeps
three process-wide path variables (`currentVideoPath`, `processedVideoPath`,
`finalVideoPath`), a shared `temp/` directory of artifacts, and exposes
endpoints that download remote media, run ffmpeg subprocesses and track the
resulting artifacts.  Pure control flow of each endpoint is translated into
Lean functions; external effects (HTTP responses, ffmpeg subprocess runs,
downloads) are passed in as explicit outcome values, and the filesystem is an
association list from path to byte size.
-/

/-- The `temp/` directory: an association list from file path to byte size. -/
abbrev FS := List (String × Nat)

/-- Look a path up in the filesystem (first match wins). -/
def fsLookup (fs : FS) (p : String) : Option Nat :=
  match fs with
  | [] => none
  | e :: rest => if e.1 = p then some e.2 else fsLookup rest p

/-- `fsSync.existsSync`: the path maps to a size. -/
def fsExists (fs : FS) (p : String) : Bool :=
  (fsLookup fs p).isSome

/-- `fs.unlink`: remove every entry for the path. -/
def fsRemove (fs : FS) (p : String) : FS :=
  match fs with
  | [] => []
  | e :: rest => if e.1 = p then fsRemove rest p else e :: fsRemove rest p

/-- Write a file: the path now maps to `sz`, any previous entry is replaced. -/
def fsSet (fs : FS) (p : String) (sz : Nat) : FS :=
  (p, sz) :: fsRemove fs p

/-- The three process-wide mutable path variables of `server.js` (lines 17-19). -/
structure ServerState where
  currentVideoPath : Option String
  processedVideoPath : Option String
  finalVideoPath : Option String
deriving DecidableEq, Repr

/-- JS truthiness for an optional string: `undefined` and `""` are falsy. -/
def jsTruthy : Option String → Bool
  | none => false
  | some s => decide (s ≠ "")

/-- `a || b` on optional strings under JS truthiness, then normalised so that a
falsy result becomes `none`. -/
def jsOrStr (a b : Option String) : Option String :=
  if jsTruthy a then a else if jsTruthy b then b else none

/-! ## Retrieval client (`downloadGoogleDriveFile`, `attemptDownload`,
`handleVirusScanPage`, server.js lines 276-450) -/

/-- An HTTP response delivered to `attemptDownload`: its `content-type` header
(absent headers are `none`) and the byte size of the streamed body. -/
structure DLResponse where
  contentType : Option String
  size : Nat
deriving DecidableEq, Repr

/-- Outcome of one `axios` GET: a network-level failure or a response. -/
inductive HttpOutcome where
  | netError (msg : String)
  | resp (r : DLResponse)
deriving DecidableEq, Repr

/-- Does the character list start with the pattern? -/
def startsWithChars : List Char → List Char → Bool
  | [], _ => true
  | _ :: _, [] => false
  | a :: as, b :: bs => a = b && startsWithChars as bs

/-- JS `String.includes`: the pattern occurs somewhere in the list. -/
def includesChars (pat : List Char) : List Char → Bool
  | [] => pat.isEmpty
  | l@(_ :: rest) => startsWithChars pat l || includesChars pat rest

/-- `contentType && contentType.includes('text/html')` (server.js line 371). -/
def ctIsHtml : Option String → Bool
  | none => false
  | some ct => includesChars "text/html".data ct.data

/-- `attemptDownload` (server.js lines 360-408): reject an HTML response before
anything is written to the final path, delete and reject a zero-byte download,
then compress the temp file into the final path.  The compression subprocess
outcome is passed in as `compress`; the returned response value is exactly the
artifact that ends up saved at the final path. -/
def attemptDownload (compress : Except String Unit) : HttpOutcome → Except String DLResponse
  | .netError m => .error m
  | .resp r =>
    if ctIsHtml r.contentType then
      .error "Received HTML page instead of video (likely virus scan)"
    else if r.size = 0 then
      .error "Downloaded file is empty"
    else
      match compress with
      | .error e => .error e
      | .ok _ => .ok r

/-- The hidden form fields scraped from a Google Drive virus-scan page
(server.js lines 425-429); `none` means the regex found no match. -/
structure ScanPageFields where
  formAction : Option String
  idField : Option String
  exportField : Option String
  confirmField : Option String
  uuidField : Option String
deriving DecidableEq, Repr

/-- Outcome of fetching the virus-scan page itself. -/
inductive ScanPageFetch where
  | netError (msg : String)
  | page (fields : ScanPageFields)
deriving DecidableEq, Repr

/-- `handleVirusScanPage` (server.js lines 412-450): fetch the confirmation
page, require the form action and the `id`/`export`/`confirm` fields, then
reissue `attemptDownload` against the reconstructed URL. -/
def handleVirusScanPage (fetch : ScanPageFetch) (compress : Except String Unit)
    (o : HttpOutcome) : Except String DLResponse :=
  match fetch with
  | .netError m => .error m
  | .page f =>
    match f.formAction, f.idField, f.exportField, f.confirmField with
    | some _, some _, some _, some _ => attemptDownload compress o
    | _, _, _, _ => .error "Could not parse virus scan page HTML"

/-- The strategy loop of `downloadGoogleDriveFile` (server.js lines 299-311):
try each method in order, return on the first success, and throw the
exhaustion error only after the last method fails. -/
def tryMethods : List (Except String DLResponse) → Except String DLResponse
  | [] => .error "All Google Drive download methods failed"
  | [m] =>
    match m with
    | .ok r => .ok r
    | .error _ => .error "All Google Drive download methods failed"
  | m :: ms =>
    match m with
    | .ok r => .ok r
    | .error _ => tryMethods ms

/-- `downloadGoogleDriveFile` (server.js lines 287-312): the ordered ladder of
direct link, direct link with `confirm=t`, and HTML-scrape fallback.  Each
strategy run is determined by its HTTP outcome and its compression outcome. -/
def downloadGoogleDriveFile
    (c1 : Except String Unit) (o1 : HttpOutcome)
    (c2 : Except String Unit) (o2 : HttpOutcome)
    (f3 : ScanPageFetch) (c3 : Except String Unit) (o3 : HttpOutcome) :
    Except String DLResponse :=
  tryMethods
    [attemptDownload c1 o1,
     attemptDownload c2 o2,
     handleVirusScanPage f3 c3 o3]

/-! ## Transcode invoker: the spawn-based merge invocation (server.js lines
126-170) and the exec-based `compressVideo` (lines 314-355) -/

/-- The fixed merge timeout (server.js line 135): 60000 ms. -/
def mergeTimeoutMs : Nat := 60000

/-- Behaviour of one spawned ffmpeg subprocess: it either closes at `atMs`
milliseconds with an exit code and accumulated stderr text, fails to spawn,
or never exits on its own. -/
inductive SpawnOutcome where
  | exited (atMs : Nat) (code : Int) (stderrAcc : String)
  | spawnFailed (msg : String)
  | neverExits
deriving DecidableEq, Repr

/-- The promise wrapping the spawned merge ffmpeg process (server.js lines
126-165).  The 60-second timer kills the process with SIGKILL and rejects;
a close before the timer fires resolves on exit code 0 and rejects with the
accumulated stderr otherwise. -/
def runMergeFfmpeg : SpawnOutcome → Except String Unit
  | .exited t code stderrAcc =>
    if t < mergeTimeoutMs then
      if code = 0 then .ok ()
      else .error ("FFmpeg failed with exit code " ++ toString code ++ ": " ++ stderrAcc)
    else .error "FFmpeg process timed out after 60 seconds"
  | .spawnFailed m => .error ("FFmpeg process error: " ++ m)
  | .neverExits => .error "FFmpeg process timed out after 60 seconds"

/-- The merge invocation including the post-run output check (server.js lines
167-173): after the promise resolves, the declared output path must exist;
`outAfter` is the size found at the output path after the run (`none` when the
file is absent).  On success the verified size is returned. -/
def mergeInvoke (so : SpawnOutcome) (outAfter : Option Nat) : Except String Nat :=
  match runMergeFfmpeg so with
  | .error e => .error e
  | .ok _ =>
    match outAfter with
    | none => .error "Video processing failed - output file not created"
    | some sz => .ok sz

/-- `compressVideo` (server.js lines 314-355), run through `exec` with a
`timeout` option and `killSignal: SIGKILL`.  `runMs` is how long the process
would run (`none` = forever); running into the timeout kills it and yields the
timeout error, a non-zero exit yields the compression failure with stderr,
and only a zero exit within the timeout resolves. -/
def compressVideo (timeoutMs : Nat) (runMs : Option Nat) (code : Int)
    (stderrTxt : String) : Except String Unit :=
  match runMs with
  | none => .error ("Video compression timed out after " ++ toString timeoutMs ++ "ms")
  | some t =>
    if timeoutMs ≤ t then
      .error ("Video compression timed out after " ++ toString timeoutMs ++ "ms")
    else if code = 0 then .ok ()
    else .error ("FFmpeg compression failed: " ++ stderrTxt)

/-! ## Probing (`getVideoInfo`, server.js lines 235-257) and the merge
command construction (lines 104-121) -/

/-- The video stream metadata ffprobe may report: width, height and
`r_frame_rate` as a numerator/denominator pair (the source evaluates the
fraction string dynamically). -/
structure StreamMeta where
  width : Option Nat
  height : Option Nat
  rFrameRate : Option (Nat × Nat)
deriving DecidableEq, Repr

/-- Outcome of `ffmpeg.ffprobe`: an error, or metadata whose stream list may
or may not contain a video stream. -/
inductive ProbeResult where
  | probeFailed (msg : String)
  | meta (videoStream : Option StreamMeta)
deriving DecidableEq, Repr

/-- `Math.round (n / d)` on a non-negative rational with positive denominator:
floor of `n / d + 1 / 2`. -/
def jsRound (n d : Nat) : Nat := (2 * n + d) / (2 * d)

/-- Probed triplet of width, height and frame rate. -/
structure VideoInfo where
  width : Nat
  height : Nat
  fps : Nat
deriving DecidableEq, Repr

/-- `getVideoInfo` (server.js lines 235-257): a probe error resolves to the
1080x1920\@30 default triplet; metadata without a video stream resolves to
270x480\@30; otherwise each field falls back through JS falsiness (a missing
or zero width gives 270, height 480, and a missing or zero rounded rate 30). -/
def getVideoInfo : ProbeResult → VideoInfo
  | .probeFailed _ => ⟨1080, 1920, 30⟩
  | .meta none => ⟨270, 480, 30⟩
  | .meta (some s) =>
    let fpsRaw : Nat :=
      match s.rFrameRate with
      | some nd => jsRound nd.1 nd.2
      | none => 30
    { width := match s.width with | some w => if w = 0 then 270 else w | none => 270
      height := match s.height with | some h => if h = 0 then 480 else h | none => 480
      fps := if fpsRaw = 0 then 30 else fpsRaw }

/-- The `-filter_complex` template string of the merge command (server.js
line 112), with the probed width, height, frame rate and the request hold
duration spliced in. -/
def mergeFilterComplex (width height fps : Nat) (dur : String) : String :=
  "[0:v]" ++
  ("scale=" ++ toString width ++ ":" ++ toString height ++
    ":force_original_aspect_ratio=decrease") ++
  "," ++
  ("pad=" ++ toString width ++ ":" ++ toString height ++
    ":(ow-iw)/2:(oh-ih)/2:black") ++
  ",setsar=1:1," ++
  ("fps=" ++ toString fps) ++
  ",format=yuv420p[thumb];[1:v]setsar=1:1[video];" ++
  "[thumb][video]concat=n=2:v=1:a=0[outv]" ++
  ";[1:a]" ++
  ("apad=pad_dur=" ++ dur) ++
  "[outa]"

/-- The full merge argument vector (server.js lines 105-121). -/
def mergeFfmpegArgs (thumbnailPath videoPath outputPath dur : String)
    (info : VideoInfo) : List String :=
  ["ffmpeg", "-loop", "1", "-t", dur, "-i", thumbnailPath, "-i", videoPath,
   "-filter_complex", mergeFilterComplex info.width info.height info.fps dur,
   "-map", "[outv]", "-map", "[outa]", "-c:v", "libx264", "-c:a", "aac",
   "-pix_fmt", "yuv420p", "-preset", "fast", "-y", outputPath]

/-- The command the merge handler builds for a given probe result (server.js
lines 99-121): the probed triplet feeds straight into the argument vector. -/
def mergeThumbnailCommand (pr : ProbeResult) (thumbnailPath videoPath outputPath dur : String) :
    List String :=
  mergeFfmpegArgs thumbnailPath videoPath outputPath dur (getVideoInfo pr)

/-- The error-path cleanup of the merge handler (server.js lines 202-222): it
recomputes `Date.now()` into a fresh output name, unlinks that name when
present, then unlinks the downloaded thumbnail when present.  `errTimestamp`
is the `Date.now()` value observed inside the catch block. -/
def mergeErrorCleanup (errTimestamp : Nat) (downloadedThumb : Option String) (fs : FS) : FS :=
  let recomputedOutput := "temp/final_video_" ++ toString errTimestamp ++ ".mp4"
  let fs1 := if fsExists fs recomputedOutput then fsRemove fs recomputedOutput else fs
  match downloadedThumb with
  | some p => if fsExists fs1 p then fsRemove fs1 p else fs1
  | none => fs1

/-- The output path the merge handler creates (server.js lines 95-96), named
from the `Date.now()` value observed at creation time. -/
def mergeOutputPath (createTimestamp : Nat) : String :=
  "temp/final_video_" ++ toString createTimestamp ++ ".mp4"

/-! ## Segment removal (`/process-video`, server.js lines 559-635) -/

/-- Outcome of one fluent-ffmpeg run: the `end` event fires (having produced
an output of the given size), or the `error` event fires with a message. -/
inductive FfmpegRun where
  | ended (outSize : Nat)
  | failed (msg : String)
deriving DecidableEq, Repr

/-- Response of `/process-video`. -/
inductive PVResp where
  | copied (outputPath : String)
  | processed (outputPath : String) (originalSize processedSize : Nat)
  | err (status : Nat) (errorField : String) (details : Option String)
deriving DecidableEq, Repr

/-- `/process-video` (server.js lines 559-635).  Requires `currentVideoPath`;
generates a fresh `temp/processed_<uuid>.mp4` output path and stores it in
`processedVideoPath` before branching; a falsy `filterComplex` copies the
current video byte-for-byte; otherwise the filter run executes and, on its
`end` event, `finalVideoPath` is also set to the output path (line 611). -/
def processVideo (filterComplex : Option String) (run : FfmpegRun) (freshId : String)
    (st : ServerState) (fs : FS) : ServerState × FS × PVResp :=
  match st.currentVideoPath with
  | none => (st, fs, .err 400 "No video file available for processing" none)
  | some cur =>
    let outputPath := "temp/processed_" ++ freshId ++ ".mp4"
    let st1 := { st with processedVideoPath := some outputPath }
    if jsTruthy filterComplex = false then
      match fsLookup fs cur with
      | none => (st1, fs, .err 500 "Failed to process video" none)
      | some sz => (st1, fsSet fs outputPath sz, .copied outputPath)
    else
      match run with
      | .failed m => (st1, fs, .err 500 "Failed to process video" (some m))
      | .ended outSize =>
        let st2 := { st1 with finalVideoPath := some outputPath }
        let fs1 := fsSet fs outputPath outSize
        match fsLookup fs1 cur with
        | none => (st2, fs1, .err 500 "Failed to process video" none)
        | some osz => (st2, fs1, .processed outputPath osz outSize)

/-! ## Composite stage (`/add-music-subtitles`, server.js lines 638-817) -/

/-- Outcome of a `downloadMusicFile` streaming download: the write stream
finishes having written `size` bytes, or errors. -/
inductive DlOutcome where
  | got (size : Nat)
  | failed (msg : String)
deriving DecidableEq, Repr

/-- Outcome of the composite fluent-ffmpeg run: the `end` event fires with the
size found at the output path afterwards (`none` when no file was produced),
or the `error` event fires. -/
inductive AMSRun where
  | ended (wrote : Option Nat)
  | failed (msg : String)
deriving DecidableEq, Repr

/-- Request body of `/add-music-subtitles`. -/
structure AMSReq where
  subtitleContent : Option String
  srtSubtitles : Option String
  googleDriveFileIDForMusic : Option String
  videoUrl : Option String
deriving DecidableEq, Repr

/-- Response of `/add-music-subtitles`. -/
inductive AMSResp where
  | ok (outputPath : String) (fileSize : Nat) (hasMusic : Bool) (hasSubtitles : Bool)
  | err (status : Nat) (errorField : String) (details : Option String)
deriving DecidableEq, Repr

/-- The run-and-respond tail of `/add-music-subtitles` (server.js lines
707-816): the ffmpeg pass, its error-path cleanup of the subtitle artifact and
the downloaded music (the unlink guard is whether a music download path was
assigned at all, i.e. `musicRequested`), the `end`-path asynchronous unlinks
(`cleanupDone` says whether they completed before the response code ran), the
output existence check, and the response whose `hasMusic` field rechecks the
music file on disk at response time (line 804). -/
def amsRespond (outputPath : String) (actualMusicPath : Option String)
    (st2 : ServerState) (fs5 : FS) : ServerState × FS × AMSResp :=
  match fsLookup fs5 outputPath with
  | none =>
    (st2, fs5, .err 500 "Failed to add subtitles"
      (some "Output video file was not created"))
  | some sz =>
    let hasMusic :=
      match actualMusicPath with
      | some mp => fsExists fs5 mp
      | none => false
    (st2, fs5, .ok outputPath sz hasMusic true)

/-- The run step proper: the ffmpeg pass with its two cleanup paths, handing
the post-run filesystem to `amsRespond`. -/
def amsRunStage (run : AMSRun) (cleanupDone : Bool)
    (outputPath subtitlePath musicPath : String) (musicRequested : Bool)
    (actualMusicPath : Option String) (st2 : ServerState) (fs3 : FS) :
    ServerState × FS × AMSResp :=
  match run with
  | .failed m =>
    let fs4 := fsRemove fs3 subtitlePath
    let fs5 := if musicRequested then fsRemove fs4 musicPath else fs4
    (st2, fs5, .err 500 "Failed to add subtitles" (some m))
  | .ended wrote =>
    let fs4 :=
      match wrote with
      | some sz => fsSet fs3 outputPath sz
      | none => fs3
    let fs5 :=
      if cleanupDone then
        let fsA := fsRemove fs4 subtitlePath
        if musicRequested then fsRemove fsA musicPath else fsA
      else fs4
    amsRespond outputPath actualMusicPath st2 fs5

/-- `/add-music-subtitles` (server.js lines 638-817), with the external
outcomes passed in: `musicDl`/`videoDl` for the two optional downloads, `run`
for the ffmpeg pass, and `cleanupDone` for whether the asynchronous unlinks
issued by the `end` callback have completed by the time the response code
checks the music file.  Control flow mirrors the source: the processed-video
checks, then `finalVideoPath := outputPath` (line 656), then the subtitle
check (line 661), the subtitle write, the tolerated music download, the video
download that replaces `processedVideoPath`, then the `amsRunStage` tail. -/
def addMusicSubtitles (req : AMSReq) (musicDl videoDl : DlOutcome) (run : AMSRun)
    (cleanupDone : Bool) (idOut idSub idMusic idVideo : String)
    (st : ServerState) (fs : FS) : ServerState × FS × AMSResp :=
  match st.processedVideoPath with
  | none => (st, fs, .err 400 "No processed video available" none)
  | some pv =>
    if fsExists fs pv = false then
      (st, fs, .err 400 "Input video file does not exist" none)
    else
      let outputPath := "temp/final_" ++ idOut ++ ".mp4"
      let subtitlePath := "temp/subtitles_" ++ idSub ++ ".srt"
      let st1 := { st with finalVideoPath := some outputPath }
      match jsOrStr req.srtSubtitles req.subtitleContent with
      | none => (st1, fs, .err 400 "No subtitle content provided" none)
      | some subText =>
        let fs1 := fsSet fs subtitlePath subText.length
        let musicPath := "temp/music_" ++ idMusic ++ ".mp3"
        let fs2AndMusic : FS × Option String :=
          match req.googleDriveFileIDForMusic with
          | none => (fs1, none)
          | some _ =>
            match musicDl with
            | .got msz => (fsSet fs1 musicPath msz, some musicPath)
            | .failed _ => (fs1, none)
        let videoPathDl := "temp/video_" ++ idVideo ++ ".mp4"
        let fs3AndSt : FS × ServerState :=
          match req.videoUrl with
          | none => (fs2AndMusic.1, st1)
          | some _ =>
            match videoDl with
            | .got vsz =>
              (fsSet fs2AndMusic.1 videoPathDl vsz,
               { st1 with processedVideoPath := some videoPathDl })
            | .failed _ => (fs2AndMusic.1, st1)
        amsRunStage run cleanupDone outputPath subtitlePath musicPath
          req.googleDriveFileIDForMusic.isSome fs2AndMusic.2 fs3AndSt.2 fs3AndSt.1

/-! ## Final video retrieval and the age-based sweep -/

/-- `/get-final-video` (server.js lines 820-826): 404 when `finalVideoPath`
is unset or its file is absent, otherwise the file is served. -/
def getFinalVideo (st : ServerState) (fs : FS) : Except String String :=
  match st.finalVideoPath with
  | none => .error "Final video not found"
  | some p => if fsExists fs p then .ok p else .error "Final video not found"

/-- The retention window of the `/cleanup` sweep (server.js line 844). -/
def oneHourMs : Int := 60 * 60 * 1000

/-- A file in the temp directory together with its mtime in epoch ms. -/
abbrev TimedFS := List (String × Int)

/-- The age-based sweep of `/cleanup` (server.js lines 846-854): every file
whose `now - mtime` exceeds one hour is unlinked; the survivors are exactly
the files within the window. -/
def cleanupSweep (now : Int) (files : TimedFS) : TimedFS :=
  files.filter (fun f => decide (¬ (now - f.2 > oneHourMs)))

/-! ## Helper lemmas on the filesystem model and path disjointness -/

theorem fsLookup_fsRemove_ne (fs : FS) (p q : String) (h : q ≠ p) :
    fsLookup (fsRemove fs q) p = fsLookup fs p := by
  induction fs with
  | nil => rfl
  | cons e rest ih =>
    show fsLookup (if e.1 = q then fsRemove rest q else e :: fsRemove rest q) p
        = if e.1 = p then some e.2 else fsLookup rest p
    by_cases he : e.1 = q
    · rw [if_pos he, if_neg (fun hh => h (he ▸ hh)), ih]
    · rw [if_neg he]
      show (if e.1 = p then some e.2 else fsLookup (fsRemove rest q) p)
          = if e.1 = p then some e.2 else fsLookup rest p
      rw [ih]

theorem fsLookup_fsRemove_self (fs : FS) (p : String) :
    fsLookup (fsRemove fs p) p = none := by
  induction fs with
  | nil => rfl
  | cons e rest ih =>
    show fsLookup (if e.1 = p then fsRemove rest p else e :: fsRemove rest p) p = none
    by_cases he : e.1 = p
    · rw [if_pos he]; exact ih
    · rw [if_neg he]
      show (if e.1 = p then some e.2 else fsLookup (fsRemove rest p) p) = none
      rw [if_neg he]; exact ih

theorem fsLookup_fsSet_self (fs : FS) (p : String) (sz : Nat) :
    fsLookup (fsSet fs p sz) p = some sz := by
  show (if p = p then some sz else fsLookup (fsRemove fs p) p) = some sz
  rw [if_pos rfl]

theorem fsLookup_fsSet_ne (fs : FS) (p q : String) (sz : Nat) (h : q ≠ p) :
    fsLookup (fsSet fs q sz) p = fsLookup fs p := by
  show (if q = p then some sz else fsLookup (fsRemove fs q) p) = fsLookup fs p
  rw [if_neg h, fsLookup_fsRemove_ne fs p q h]

theorem append_ne_of_take_ne (n : Nat) (p q a b : String)
    (hp : n ≤ p.data.length) (hq : n ≤ q.data.length)
    (hne : p.data.take n ≠ q.data.take n) : p ++ a ≠ q ++ b := by
  intro h
  have hd : (p ++ a).data = (q ++ b).data := congrArg String.data h
  rw [String.data_append, String.data_append] at hd
  have ht := congrArg (List.take n) hd
  rw [List.take_append_of_le_length hp, List.take_append_of_le_length hq] at ht
  exact hne ht

theorem concat3_ne (h1 x1 s1 h2 x2 s2 : String) (n : Nat)
    (hp : n ≤ h1.data.length) (hq : n ≤ h2.data.length)
    (hne : h1.data.take n ≠ h2.data.take n) :
    h1 ++ x1 ++ s1 ≠ h2 ++ x2 ++ s2 := by
  rw [String.append_assoc, String.append_assoc]
  exact append_ne_of_take_ne n h1 h2 (x1 ++ s1) (x2 ++ s2) hp hq hne

/-! ## Claim theorems -/

/-- C1 counterexample: the claim says no stage other than the terminal
composite stage ever writes the final-artifact slot, but the segment-removal
endpoint `/process-video` writes `finalVideoPath` on the `end` event of its
filter run (server.js line 611).  Concretely: starting from a state whose
`finalVideoPath` is unset, a successful filtered segment-removal call leaves
`finalVideoPath` pointing at the freshly processed output. -/
theorem claim_C1_counterexample :
    (⟨some "temp/in.mp4", none, none⟩ : ServerState).finalVideoPath = none
    ∧ (processVideo (some "[0:v]trim=0:1[outv];[0:a]atrim=0:1[outa]")
        (.ended 7) "u1" ⟨some "temp/in.mp4", none, none⟩
        [("temp/in.mp4", 5)]).1.finalVideoPath = some "temp/processed_u1.mp4" := by
  exact ⟨rfl, rfl⟩

/-- C1 amended: the retrieval side of the invariant holds — `/get-final-video`
serves a file only when `finalVideoPath` is set and its file exists, and fails
with the not-found error whenever the slot is unset or the file is absent —
but the slot is not written exclusively by the composite stage: a successful
filtered `/process-video` run also writes it. -/
theorem claim_C1_amended :
    (∀ st fs p, getFinalVideo st fs = .ok p →
      st.finalVideoPath = some p ∧ fsExists fs p = true)
    ∧ (∀ st fs, st.finalVideoPath = none →
      getFinalVideo st fs = .error "Final video not found")
    ∧ (∀ st fs p, st.finalVideoPath = some p → fsExists fs p = false →
      getFinalVideo st fs = .error "Final video not found")
    ∧ (∀ f run freshId st fs cur outSize,
        st.currentVideoPath = some cur → jsTruthy f = true →
        run = FfmpegRun.ended outSize →
        (processVideo f run freshId st fs).1.finalVideoPath
          = some ("temp/processed_" ++ freshId ++ ".mp4")) := by
  refine ⟨?_, ?_, ?_, ?_⟩
  · intro st fs p hok
    cases hst : st.finalVideoPath with
    | none => simp [getFinalVideo, hst] at hok
    | some q =>
      simp only [getFinalVideo, hst] at hok
      by_cases hex : fsExists fs q = true
      · rw [if_pos hex] at hok
        simp only [Except.ok.injEq] at hok
        subst hok
        exact ⟨rfl, hex⟩
      · rw [if_neg hex] at hok
        simp at hok
  · intro st fs hnone
    simp [getFinalVideo, hnone]
  · intro st fs p hsome hex
    simp [getFinalVideo, hsome, hex]
  · intro f run freshId st fs cur outSize hcur hf hrun
    subst hrun
    simp only [processVideo, hcur, hf]
    cases fsLookup (fsSet fs ("temp/processed_" ++ freshId ++ ".mp4") outSize) cur <;> simp

/-- C1 amended witness at concrete inputs. -/
theorem claim_C1_amended_witness :
    getFinalVideo ⟨none, none, some "temp/final_x.mp4"⟩ [("temp/final_x.mp4", 9)]
      = .ok "temp/final_x.mp4"
    ∧ (⟨none, none, some "temp/final_x.mp4"⟩ : ServerState).finalVideoPath
        = some "temp/final_x.mp4"
    ∧ getFinalVideo ⟨none, none, none⟩ [("temp/final_x.mp4", 9)]
      = .error "Final video not found"
    ∧ getFinalVideo ⟨none, none, some "temp/final_x.mp4"⟩ []
      = .error "Final video not found"
    ∧ (processVideo (some "[0:v]trim[outv]") (.ended 3) "u2"
        ⟨some "temp/a.mp4", none, none⟩ [("temp/a.mp4", 4)]).1.finalVideoPath
      = some "temp/processed_u2.mp4" := by
  refine ⟨rfl, rfl, claim_C1_amended.2.1 _ _ rfl, claim_C1_amended.2.2.1 _ _ _ rfl rfl,
    claim_C1_amended.2.2.2 _ _ "u2" _ _ "temp/a.mp4" 3 rfl rfl rfl⟩

/-- C6: a segment-removal request without a filter graph copies the current
working input byte-for-byte: the stage still records a new processed artifact
path built from the fresh collision-resistant identifier, the output carries
the exact byte size of the input, and the output path is a new artifact
identity distinct from the input path. -/
theorem claim_C6_copy_passthrough :
    ∀ freshId run st fs cur sz,
      st.currentVideoPath = some cur →
      fsLookup fs cur = some sz →
      fsExists fs ("temp/processed_" ++ freshId ++ ".mp4") = false →
      (processVideo none run freshId st fs).2.2
          = .copied ("temp/processed_" ++ freshId ++ ".mp4")
      ∧ (processVideo none run freshId st fs).1.processedVideoPath
          = some ("temp/processed_" ++ freshId ++ ".mp4")
      ∧ fsLookup (processVideo none run freshId st fs).2.1
          ("temp/processed_" ++ freshId ++ ".mp4") = some sz
      ∧ ("temp/processed_" ++ freshId ++ ".mp4") ≠ cur := by
  intro freshId run st fs cur sz hcur hsz hfresh
  have hne : ("temp/processed_" ++ freshId ++ ".mp4") ≠ cur := by
    intro h
    rw [h, fsExists, hsz] at hfresh
    simp at hfresh
  refine ⟨?_, ?_, ?_, hne⟩ <;>
    simp [processVideo, hcur, jsTruthy, hsz, fsLookup_fsSet_self]

/-- C6 witness at concrete inputs. -/
theorem claim_C6_copy_passthrough_witness :
    (processVideo none (.ended 0) "w1" ⟨some "temp/v.mp4", none, none⟩
        [("temp/v.mp4", 42)]).2.2 = .copied "temp/processed_w1.mp4"
    ∧ (processVideo none (.ended 0) "w1" ⟨some "temp/v.mp4", none, none⟩
        [("temp/v.mp4", 42)]).1.processedVideoPath = some "temp/processed_w1.mp4"
    ∧ fsLookup (processVideo none (.ended 0) "w1" ⟨some "temp/v.mp4", none, none⟩
        [("temp/v.mp4", 42)]).2.1 "temp/processed_w1.mp4" = some 42
    ∧ ("temp/processed_w1.mp4" : String) ≠ "temp/v.mp4" := by
  exact claim_C6_copy_passthrough "w1" (.ended 0) ⟨some "temp/v.mp4", none, none⟩
    [("temp/v.mp4", 42)] "temp/v.mp4" 42 rfl (by decide) (by decide)

/-- C7: the claim says the failed stage's newly-attempted output artifact is
deleted before the error is returned; the merge handler's catch block instead
recomputes `Date.now()` into a fresh file name (server.js lines 206-207), so
when the error handler runs even one millisecond after the output path was
created, the cleanup probes a file that never existed and the actual failed
output survives, while the auxiliary downloaded thumbnail is deleted. -/
theorem claim_C7_failed_output_survives :
    fsExists
      (mergeErrorCleanup 1001 (some "temp/thumbnail_abc.png")
        [(mergeOutputPath 1000, 999), ("temp/thumbnail_abc.png", 5)])
      (mergeOutputPath 1000) = true
    ∧ fsExists
      (mergeErrorCleanup 1001 (some "temp/thumbnail_abc.png")
        [(mergeOutputPath 1000, 999), ("temp/thumbnail_abc.png", 5)])
      "temp/thumbnail_abc.png" = false
    ∧ mergeOutputPath 1000 ≠ mergeOutputPath 1001 := by
  refine ⟨by decide, by decide, by decide⟩

/-- C8: the age-based sweep of `/cleanup` deletes exactly the files whose
last-modified time is more than one hour before `now`, and keeps every file
within the window. -/
theorem claim_C8_sweep :
    ∀ now files p m, (p, m) ∈ files →
      ((now - m > oneHourMs → (p, m) ∉ cleanupSweep now files)
       ∧ (now - m ≤ oneHourMs → (p, m) ∈ cleanupSweep now files)) := by
  intro now files p m hmem
  constructor
  · intro hold hmem2
    rw [cleanupSweep, List.mem_filter] at hmem2
    have hkeep := hmem2.2
    simp only [decide_eq_true_eq] at hkeep
    omega
  · intro hyoung
    rw [cleanupSweep, List.mem_filter]
    refine ⟨hmem, ?_⟩
    simp only [decide_eq_true_eq]
    omega

/-- C8 witness: at `now = 7200000` ms a file of mtime 0 (two hours old) is
swept and a file of mtime 7000000 (200 seconds old) is kept. -/
theorem claim_C8_sweep_witness :
    (("temp/old.mp4", (0 : Int)) ∉
      cleanupSweep 7200000 [("temp/old.mp4", 0), ("temp/new.mp4", 7000000)])
    ∧ (("temp/new.mp4", (7000000 : Int)) ∈
      cleanupSweep 7200000 [("temp/old.mp4", 0), ("temp/new.mp4", 7000000)]) :=
  ⟨(claim_C8_sweep 7200000 [("temp/old.mp4", 0), ("temp/new.mp4", 7000000)]
      "temp/old.mp4" 0 (by decide)).1 (by decide),
   (claim_C8_sweep 7200000 [("temp/old.mp4", 0), ("temp/new.mp4", 7000000)]
      "temp/new.mp4" 7000000 (by decide)).2 (by decide)⟩

/-- C3 counterexample: the claim says a zero exit status whose declared output
is empty yields a transcode error, but the merge invoker only checks that the
output path exists (server.js line 168) and never checks its size: a zero
exit with an existing zero-byte output is reported as success. -/
theorem claim_C3_counterexample :
    mergeInvoke (.exited 5000 0 "") (some 0) = .ok 0 := by
  rfl

/-- C3 amended: a non-zero exit status yields a transcode error carrying the
accumulated stderr text; a zero exit status whose declared output path does
not exist yields the output-file-not-created error rather than success, and
success is returned only after the output is verified to exist (emptiness is
not checked); the composite endpoint performs the same existence-only check
after its run. -/
theorem claim_C3_amended :
    (∀ t c s out, t < mergeTimeoutMs → c ≠ 0 →
      mergeInvoke (.exited t c s) out
        = .error ("FFmpeg failed with exit code " ++ toString c ++ ": " ++ s))
    ∧ (∀ t s, t < mergeTimeoutMs →
      mergeInvoke (.exited t 0 s) none
        = .error "Video processing failed - output file not created")
    ∧ (∀ so out sz, mergeInvoke so out = .ok sz →
      out = some sz ∧ ∃ t s, so = .exited t 0 s ∧ t < mergeTimeoutMs)
    ∧ (∀ req musicDl videoDl cleanupDone idOut idSub idMusic idVideo st fs pv sub,
      st.processedVideoPath = some pv →
      fsExists fs pv = true →
      jsOrStr req.srtSubtitles req.subtitleContent = some sub →
      req.googleDriveFileIDForMusic = none →
      req.videoUrl = none →
      fsLookup fs ("temp/final_" ++ idOut ++ ".mp4") = none →
      (addMusicSubtitles req musicDl videoDl (.ended none) cleanupDone
        idOut idSub idMusic idVideo st fs).2.2
        = .err 500 "Failed to add subtitles" (some "Output video file was not created")) := by
  refine ⟨?_, ?_, ?_, ?_⟩
  · intro t c s out ht hc
    simp [mergeInvoke, runMergeFfmpeg, ht, hc]
  · intro t s ht
    simp [mergeInvoke, runMergeFfmpeg, ht]
  · intro so out sz hok
    match so with
    | .exited t c s =>
      by_cases ht : t < mergeTimeoutMs
      · by_cases hc : c = 0
        · subst hc
          simp only [mergeInvoke, runMergeFfmpeg, ht, if_pos, if_true] at hok
          match out with
          | none => simp at hok
          | some osz =>
            simp only [Except.ok.injEq] at hok
            subst hok
            exact ⟨rfl, t, s, rfl, ht⟩
        · simp [mergeInvoke, runMergeFfmpeg, ht, hc] at hok
      · simp [mergeInvoke, runMergeFfmpeg, ht] at hok
    | .spawnFailed m => simp [mergeInvoke, runMergeFfmpeg] at hok
    | .neverExits => simp [mergeInvoke, runMergeFfmpeg] at hok
  · intro req musicDl videoDl cleanupDone idOut idSub idMusic idVideo st fs pv sub
      hpv hex hsub hmus hvid hout
    have hsubne : ("temp/subtitles_" ++ idSub ++ ".srt")
        ≠ ("temp/final_" ++ idOut ++ ".mp4") :=
      concat3_ne "temp/subtitles_" idSub ".srt" "temp/final_" idOut ".mp4" 6
        (by decide) (by decide) (by decide)
    simp only [addMusicSubtitles, hpv, hex, hsub, hmus, hvid]
    have h4 : fsLookup (fsSet fs ("temp/subtitles_" ++ idSub ++ ".srt") sub.length)
        ("temp/final_" ++ idOut ++ ".mp4") = none := by
      rw [fsLookup_fsSet_ne _ _ _ _ hsubne, hout]
    have h5 : fsLookup (fsRemove (fsSet fs ("temp/subtitles_" ++ idSub ++ ".srt") sub.length)
        ("temp/subtitles_" ++ idSub ++ ".srt")) ("temp/final_" ++ idOut ++ ".mp4") = none := by
      rw [fsLookup_fsRemove_ne _ _ _ hsubne, h4]
    cases cleanupDone <;> simp [amsRunStage, amsRespond, h4, h5]

/-- C3 amended witness at concrete inputs. -/
theorem claim_C3_amended_witness :
    mergeInvoke (.exited 100 1 "diag") none
      = .error ("FFmpeg failed with exit code " ++ toString (1 : Int) ++ ": " ++ "diag")
    ∧ mergeInvoke (.exited 100 0 "x") none
      = .error "Video processing failed - output file not created"
    ∧ ((some 7 : Option Nat) = some 7
        ∧ ∃ t s, (SpawnOutcome.exited 100 0 "x") = .exited t 0 s ∧ t < mergeTimeoutMs)
    ∧ (addMusicSubtitles ⟨some "1", none, none, none⟩ (.failed "m") (.failed "v")
        (.ended none) false "o1" "s1" "m1" "v1"
        ⟨none, some "temp/p.mp4", none⟩ [("temp/p.mp4", 3)]).2.2
      = .err 500 "Failed to add subtitles" (some "Output video file was not created") := by
  refine ⟨claim_C3_amended.1 100 1 "diag" none (by decide) (by decide),
    claim_C3_amended.2.1 100 "x" (by decide),
    claim_C3_amended.2.2.1 (.exited 100 0 "x") (some 7) 7 rfl,
    claim_C3_amended.2.2.2 ⟨some "1", none, none, none⟩ (.failed "m") (.failed "v")
      false "o1" "s1" "m1" "v1" ⟨none, some "temp/p.mp4", none⟩ [("temp/p.mp4", 3)]
      "temp/p.mp4" "1" rfl (by decide) (by decide) rfl rfl (by decide)⟩

/-- C4: a merge subprocess that has not exited when the 60000 ms timer fires
is killed and the invocation rejects with the timeout error; a timed-out run
is never reported as success (with or without output), the invocation always
produces a result, and the exec-based `compressVideo` kills its subprocess at
its `timeoutMs` option and rejects with its timeout error likewise. -/
theorem claim_C4_timeout :
    (runMergeFfmpeg .neverExits = .error "FFmpeg process timed out after 60 seconds")
    ∧ (∀ t c s, mergeTimeoutMs ≤ t →
      runMergeFfmpeg (.exited t c s) = .error "FFmpeg process timed out after 60 seconds")
    ∧ (∀ so, runMergeFfmpeg so = .ok () →
      ∃ t s, so = .exited t 0 s ∧ t < mergeTimeoutMs)
    ∧ (∀ out sz, mergeInvoke .neverExits out ≠ .ok sz)
    ∧ (∀ tm c s, compressVideo tm none c s
      = .error ("Video compression timed out after " ++ toString tm ++ "ms"))
    ∧ (∀ tm t c s, tm ≤ t → compressVideo tm (some t) c s
      = .error ("Video compression timed out after " ++ toString tm ++ "ms"))
    ∧ (∀ tm rm c s, compressVideo tm rm c s = .ok () →
      ∃ t, rm = some t ∧ t < tm ∧ c = 0) := by
  refine ⟨rfl, ?_, ?_, ?_, ?_, ?_, ?_⟩
  · intro t c s ht
    simp [runMergeFfmpeg, Nat.not_lt.mpr ht]
  · intro so hok
    match so with
    | .exited t c s =>
      by_cases ht : t < mergeTimeoutMs
      · by_cases hc : c = 0
        · subst hc; exact ⟨t, s, rfl, ht⟩
        · simp [runMergeFfmpeg, ht, hc] at hok
      · simp [runMergeFfmpeg, ht] at hok
    | .spawnFailed m => simp [runMergeFfmpeg] at hok
    | .neverExits => simp [runMergeFfmpeg] at hok
  · intro out sz hok
    simp [mergeInvoke, runMergeFfmpeg] at hok
  · intro tm c s
    rfl
  · intro tm t c s ht
    simp [compressVideo, ht]
  · intro tm rm c s hok
    match rm with
    | none => simp [compressVideo] at hok
    | some t =>
      by_cases ht : tm ≤ t
      · simp [compressVideo, ht] at hok
      · by_cases hc : c = 0
        · exact ⟨t, rfl, Nat.not_le.mp ht, hc⟩
        · simp [compressVideo, ht, hc] at hok

/-- C4 witness at concrete inputs. -/
theorem claim_C4_timeout_witness :
    runMergeFfmpeg (.exited 60000 0 "late")
      = .error "FFmpeg process timed out after 60 seconds"
    ∧ (∃ t s, SpawnOutcome.exited 99 0 "ok" = SpawnOutcome.exited t 0 s ∧ t < mergeTimeoutMs)
    ∧ mergeInvoke .neverExits (some 5) ≠ .ok 5
    ∧ compressVideo 600000 (some 600000) 0 "s"
      = .error ("Video compression timed out after " ++ toString (600000 : Nat) ++ "ms")
    ∧ (∃ t, (some 3 : Option Nat) = some t ∧ t < 600000 ∧ (0 : Int) = 0) := by
  refine ⟨claim_C4_timeout.2.1 60000 0 "late" (by decide),
    claim_C4_timeout.2.2.1 (.exited 99 0 "ok") rfl,
    claim_C4_timeout.2.2.2.1 (some 5) 5,
    claim_C4_timeout.2.2.2.2.2.1 600000 600000 0 "s" (by decide),
    claim_C4_timeout.2.2.2.2.2.2 600000 (some 3) 0 "s" rfl⟩

/-- C2: the retrieval ladder tries its strategies strictly in order; any one
failure (including an HTML content-type and a zero-byte body) advances to the
next strategy instead of aborting; an HTML page or an empty body is never the
saved artifact of a successful retrieval; and the all-methods-failed error is
raised exactly when all three strategies fail. -/
theorem claim_C2_retrieval_ladder :
    (∀ r b c, tryMethods [.ok r, b, c] = .ok r)
    ∧ (∀ e r c, tryMethods [.error e, .ok r, c] = .ok r)
    ∧ (∀ e1 e2 r, tryMethods [.error e1, .error e2, .ok r] = .ok r)
    ∧ (∀ e1 e2 e3, tryMethods [.error e1, .error e2, .error e3]
        = .error "All Google Drive download methods failed")
    ∧ (∀ cm o r, attemptDownload cm o = .ok r →
        ctIsHtml r.contentType = false ∧ r.size ≠ 0)
    ∧ (∀ c1 o1 c2 o2 f3 c3 o3 r,
        downloadGoogleDriveFile c1 o1 c2 o2 f3 c3 o3 = .ok r →
        ctIsHtml r.contentType = false ∧ r.size ≠ 0)
    ∧ (∀ ct n c1 c2 o2 f3 c3 o3 r, ctIsHtml ct = true →
        attemptDownload c2 o2 = .ok r →
        downloadGoogleDriveFile c1 (.resp ⟨ct, n⟩) c2 o2 f3 c3 o3 = .ok r)
    ∧ (∀ c1 o1 c2 o2 f3 c3 o3 e,
        downloadGoogleDriveFile c1 o1 c2 o2 f3 c3 o3 = .error e →
        e = "All Google Drive download methods failed"
        ∧ (attemptDownload c1 o1).isOk = false
        ∧ (attemptDownload c2 o2).isOk = false
        ∧ (handleVirusScanPage f3 c3 o3).isOk = false) := by
  have hoknot : ∀ (cm : Except String Unit) (o : HttpOutcome) (r : DLResponse),
      attemptDownload cm o = .ok r → ctIsHtml r.contentType = false ∧ r.size ≠ 0 := by
    intro cm o r hok
    match o with
    | .netError m => simp [attemptDownload] at hok
    | .resp rr =>
      by_cases hh : ctIsHtml rr.contentType = true
      · simp [attemptDownload, hh] at hok
      · by_cases hz : rr.size = 0
        · simp [attemptDownload, hh, hz] at hok
        · match cm with
          | .error e => simp [attemptDownload, hh, hz] at hok
          | .ok _ =>
            simp only [attemptDownload, hh, hz, if_neg, if_false,
              Bool.not_eq_true, Except.ok.injEq] at hok
            subst hok
            exact ⟨Bool.not_eq_true _ ▸ hh, hz⟩
  have hvirus : ∀ (f3 : ScanPageFetch) (c3 : Except String Unit) (o3 : HttpOutcome)
      (r : DLResponse), handleVirusScanPage f3 c3 o3 = .ok r →
      ctIsHtml r.contentType = false ∧ r.size ≠ 0 := by
    intro f3 c3 o3 r hok
    match f3 with
    | .netError m => simp [handleVirusScanPage] at hok
    | .page f =>
      match hfa : f.formAction, hid : f.idField, hexp : f.exportField,
          hcf : f.confirmField with
      | some a, some b, some c, some d =>
        simp only [handleVirusScanPage, hfa, hid, hexp, hcf] at hok
        exact hoknot c3 o3 r hok
      | none, _, _, _ => simp [handleVirusScanPage, hfa] at hok
      | some a, none, _, _ => simp [handleVirusScanPage, hfa, hid] at hok
      | some a, some b, none, _ => simp [handleVirusScanPage, hfa, hid, hexp] at hok
      | some a, some b, some c, none => simp [handleVirusScanPage, hfa, hid, hexp, hcf] at hok
  refine ⟨fun r b c => rfl, fun e r c => rfl, fun e1 e2 r => rfl, fun e1 e2 e3 => rfl,
    hoknot, ?_, ?_, ?_⟩
  · intro c1 o1 c2 o2 f3 c3 o3 r hok
    rw [downloadGoogleDriveFile] at hok
    match h1 : attemptDownload c1 o1 with
    | .ok r1 =>
      rw [h1] at hok
      simp only [tryMethods, Except.ok.injEq] at hok
      exact hok ▸ hoknot c1 o1 r1 h1
    | .error e1 =>
      rw [h1] at hok
      match h2 : attemptDownload c2 o2 with
      | .ok r2 =>
        rw [h2] at hok
        simp only [tryMethods, Except.ok.injEq] at hok
        exact hok ▸ hoknot c2 o2 r2 h2
      | .error e2 =>
        rw [h2] at hok
        match h3 : handleVirusScanPage f3 c3 o3 with
        | .ok r3 =>
          rw [h3] at hok
          simp only [tryMethods, Except.ok.injEq] at hok
          exact hok ▸ hvirus f3 c3 o3 r3 h3
        | .error e3 =>
          rw [h3] at hok
          simp [tryMethods] at hok
  · intro ct n c1 c2 o2 f3 c3 o3 r hhtml hok2
    have h1 : attemptDownload c1 (.resp ⟨ct, n⟩)
        = .error "Received HTML page instead of video (likely virus scan)" := by
      simp [attemptDownload, hhtml]
    rw [downloadGoogleDriveFile, h1, hok2]
    rfl
  · intro c1 o1 c2 o2 f3 c3 o3 e herr
    rw [downloadGoogleDriveFile] at herr
    match h1 : attemptDownload c1 o1 with
    | .ok r1 => rw [h1] at herr; simp [tryMethods] at herr
    | .error e1 =>
      rw [h1] at herr
      match h2 : attemptDownload c2 o2 with
      | .ok r2 => rw [h2] at herr; simp [tryMethods] at herr
      | .error e2 =>
        rw [h2] at herr
        match h3 : handleVirusScanPage f3 c3 o3 with
        | .ok r3 => rw [h3] at herr; simp [tryMethods] at herr
        | .error e3 =>
          rw [h3] at herr
          simp only [tryMethods, Except.error.injEq] at herr
          exact ⟨herr.symm, rfl, rfl, rfl⟩

/-- C2 witness at concrete inputs. -/
theorem claim_C2_retrieval_ladder_witness :
    (ctIsHtml (some "video/mp4") = false ∧ (10 : Nat) ≠ 0)
    ∧ downloadGoogleDriveFile (.ok ()) (.resp ⟨some "text/html; charset=utf-8", 2048⟩)
        (.ok ()) (.resp ⟨some "video/mp4", 10⟩)
        (.netError "n") (.ok ()) (.netError "n")
      = .ok ⟨some "video/mp4", 10⟩ := by
  constructor
  · exact claim_C2_retrieval_ladder.2.2.2.2.1 (.ok ()) (.resp ⟨some "video/mp4", 10⟩)
      ⟨some "video/mp4", 10⟩ (by rfl)
  · exact claim_C2_retrieval_ladder.2.2.2.2.2.2.1 (some "text/html; charset=utf-8") 2048
      (.ok ()) (.ok ()) (.resp ⟨some "video/mp4", 10⟩) (.netError "n") (.ok ())
      (.netError "n") ⟨some "video/mp4", 10⟩ (by decide) (by rfl)

set_option maxRecDepth 40000 in
/-- C5: the merge command scales and pads the still to exactly the probed
width and height, forces the probed frame rate, concatenates the thumbnail
segment ahead of the main video, and pads the audio with silence for the hold
duration; a probe failure falls back to the fixed default triplet
1080x1920 at 30 fps; the filter string template instantiated at the
spec example 270x480 at 30 fps with a 0.3 s hold is reproduced verbatim. -/
theorem claim_C5_thumbnail_compositing :
    (∀ m, getVideoInfo (.probeFailed m) = ⟨1080, 1920, 30⟩)
    ∧ (∀ w h n d, w ≠ 0 → h ≠ 0 → jsRound n d ≠ 0 →
      getVideoInfo (.meta (some ⟨some w, some h, some (n, d)⟩)) = ⟨w, h, jsRound n d⟩)
    ∧ (∀ w h f dur, ∃ pre post, mergeFilterComplex w h f dur
      = pre ++ ("scale=" ++ toString w ++ ":" ++ toString h
          ++ ":force_original_aspect_ratio=decrease") ++ post)
    ∧ (∀ w h f dur, ∃ pre post, mergeFilterComplex w h f dur
      = pre ++ ("pad=" ++ toString w ++ ":" ++ toString h
          ++ ":(ow-iw)/2:(oh-ih)/2:black") ++ post)
    ∧ (∀ w h f dur, ∃ pre post, mergeFilterComplex w h f dur
      = pre ++ ("fps=" ++ toString f) ++ post)
    ∧ (∀ w h f dur, ∃ pre post, mergeFilterComplex w h f dur
      = pre ++ "[thumb][video]concat=n=2:v=1:a=0[outv]" ++ post)
    ∧ (∀ w h f dur, ∃ pre post, mergeFilterComplex w h f dur
      = pre ++ ("apad=pad_dur=" ++ dur) ++ post)
    ∧ (∀ tp vp op dur info, ∃ pre post, mergeFfmpegArgs tp vp op dur info
      = pre ++ ["-filter_complex",
          mergeFilterComplex info.width info.height info.fps dur] ++ post)
    ∧ (∀ pr tp vp op dur, mergeThumbnailCommand pr tp vp op dur
      = mergeFfmpegArgs tp vp op dur (getVideoInfo pr))
    ∧ mergeFilterComplex 270 480 30 "0.3"
      = "[0:v]scale=270:480:force_original_aspect_ratio=decrease,pad=270:480:(ow-iw)/2:(oh-ih)/2:black,setsar=1:1,fps=30,format=yuv420p[thumb];[1:v]setsar=1:1[video];[thumb][video]concat=n=2:v=1:a=0[outv];[1:a]apad=pad_dur=0.3[outa]" := by
  refine ⟨fun m => rfl, ?_, ?_, ?_, ?_, ?_, ?_, ?_, fun pr tp vp op dur => rfl, by decide⟩
  · intro w h n d hw hh hf
    simp [getVideoInfo, hw, hh, hf]
  · intro w h f dur
    refine ⟨"[0:v]", "," ++ ("pad=" ++ toString w ++ ":" ++ toString h
      ++ ":(ow-iw)/2:(oh-ih)/2:black") ++ ",setsar=1:1," ++ ("fps=" ++ toString f)
      ++ ",format=yuv420p[thumb];[1:v]setsar=1:1[video];"
      ++ "[thumb][video]concat=n=2:v=1:a=0[outv]" ++ ";[1:a]"
      ++ ("apad=pad_dur=" ++ dur) ++ "[outa]", ?_⟩
    apply String.ext
    simp [mergeFilterComplex, String.data_append, List.append_assoc]
  · intro w h f dur
    refine ⟨"[0:v]" ++ ("scale=" ++ toString w ++ ":" ++ toString h
      ++ ":force_original_aspect_ratio=decrease") ++ ",",
      ",setsar=1:1," ++ ("fps=" ++ toString f)
      ++ ",format=yuv420p[thumb];[1:v]setsar=1:1[video];"
      ++ "[thumb][video]concat=n=2:v=1:a=0[outv]" ++ ";[1:a]"
      ++ ("apad=pad_dur=" ++ dur) ++ "[outa]", ?_⟩
    apply String.ext
    simp [mergeFilterComplex, String.data_append, List.append_assoc]
  · intro w h f dur
    refine ⟨"[0:v]" ++ ("scale=" ++ toString w ++ ":" ++ toString h
      ++ ":force_original_aspect_ratio=decrease") ++ ","
      ++ ("pad=" ++ toString w ++ ":" ++ toString h
      ++ ":(ow-iw)/2:(oh-ih)/2:black") ++ ",setsar=1:1,",
      ",format=yuv420p[thumb];[1:v]setsar=1:1[video];"
      ++ "[thumb][video]concat=n=2:v=1:a=0[outv]" ++ ";[1:a]"
      ++ ("apad=pad_dur=" ++ dur) ++ "[outa]", ?_⟩
    apply String.ext
    simp [mergeFilterComplex, String.data_append, List.append_assoc]
  · intro w h f dur
    refine ⟨"[0:v]" ++ ("scale=" ++ toString w ++ ":" ++ toString h
      ++ ":force_original_aspect_ratio=decrease") ++ ","
      ++ ("pad=" ++ toString w ++ ":" ++ toString h
      ++ ":(ow-iw)/2:(oh-ih)/2:black") ++ ",setsar=1:1," ++ ("fps=" ++ toString f)
      ++ ",format=yuv420p[thumb];[1:v]setsar=1:1[video];",
      ";[1:a]" ++ ("apad=pad_dur=" ++ dur) ++ "[outa]", ?_⟩
    apply String.ext
    simp [mergeFilterComplex, String.data_append, List.append_assoc]
  · intro w h f dur
    refine ⟨"[0:v]" ++ ("scale=" ++ toString w ++ ":" ++ toString h
      ++ ":force_original_aspect_ratio=decrease") ++ ","
      ++ ("pad=" ++ toString w ++ ":" ++ toString h
      ++ ":(ow-iw)/2:(oh-ih)/2:black") ++ ",setsar=1:1," ++ ("fps=" ++ toString f)
      ++ ",format=yuv420p[thumb];[1:v]setsar=1:1[video];"
      ++ "[thumb][video]concat=n=2:v=1:a=0[outv]" ++ ";[1:a]", "[outa]", ?_⟩
    apply String.ext
    simp [mergeFilterComplex, String.data_append, List.append_assoc]
  · intro tp vp op dur info
    exact ⟨["ffmpeg", "-loop", "1", "-t", dur, "-i", tp, "-i", vp],
      ["-map", "[outv]", "-map", "[outa]", "-c:v", "libx264", "-c:a", "aac",
       "-pix_fmt", "yuv420p", "-preset", "fast", "-y", op], rfl⟩

/-- C5 witness at concrete inputs: the spec example probe triplet. -/
theorem claim_C5_thumbnail_compositing_witness :
    getVideoInfo (.meta (some ⟨some 270, some 480, some (30, 1)⟩)) = ⟨270, 480, jsRound 30 1⟩
    ∧ jsRound 30 1 = 30 := by
  exact ⟨claim_C5_thumbnail_compositing.2.1 270 480 30 1 (by decide) (by decide) (by decide),
    by decide⟩

/-- C9: the composite endpoint overwrites the shared `finalVideoPath` with its
new output path before the subtitle validation and before the transcode runs,
so a composite call rejected with the 400 no-subtitle error leaves
`finalVideoPath` pointing at a file that was never created: a final video that
was downloadable before the call is no longer downloadable after it. -/
theorem claim_C9_dangling_final_path :
    ∀ req musicDl videoDl run cleanupDone idOut idSub idMusic idVideo st fs pv old,
      st.processedVideoPath = some pv →
      fsExists fs pv = true →
      jsOrStr req.srtSubtitles req.subtitleContent = none →
      st.finalVideoPath = some old →
      fsExists fs old = true →
      fsExists fs ("temp/final_" ++ idOut ++ ".mp4") = false →
      (addMusicSubtitles req musicDl videoDl run cleanupDone
          idOut idSub idMusic idVideo st fs).2.2
        = .err 400 "No subtitle content provided" none
      ∧ (addMusicSubtitles req musicDl videoDl run cleanupDone
          idOut idSub idMusic idVideo st fs).1.finalVideoPath
        = some ("temp/final_" ++ idOut ++ ".mp4")
      ∧ (addMusicSubtitles req musicDl videoDl run cleanupDone
          idOut idSub idMusic idVideo st fs).2.1 = fs
      ∧ getFinalVideo st fs = .ok old
      ∧ getFinalVideo
          (addMusicSubtitles req musicDl videoDl run cleanupDone
            idOut idSub idMusic idVideo st fs).1
          (addMusicSubtitles req musicDl videoDl run cleanupDone
            idOut idSub idMusic idVideo st fs).2.1
        = .error "Final video not found" := by
  intro req musicDl videoDl run cleanupDone idOut idSub idMusic idVideo st fs pv old
    hpv hex hsub hfin hexold hexout
  refine ⟨?_, ?_, ?_, ?_, ?_⟩ <;>
    simp [addMusicSubtitles, hpv, hex, hsub, getFinalVideo, hfin, hexold, hexout]

/-- C9 witness at concrete inputs. -/
theorem claim_C9_dangling_final_path_witness :
    (addMusicSubtitles ⟨none, none, none, none⟩ (.failed "m") (.failed "v") (.failed "r")
        false "o9" "s9" "m9" "v9" ⟨none, some "temp/p.mp4", some "temp/old_final.mp4"⟩
        [("temp/p.mp4", 3), ("temp/old_final.mp4", 8)]).2.2
      = .err 400 "No subtitle content provided" none
    ∧ (addMusicSubtitles ⟨none, none, none, none⟩ (.failed "m") (.failed "v") (.failed "r")
        false "o9" "s9" "m9" "v9" ⟨none, some "temp/p.mp4", some "temp/old_final.mp4"⟩
        [("temp/p.mp4", 3), ("temp/old_final.mp4", 8)]).1.finalVideoPath
      = some "temp/final_o9.mp4"
    ∧ (addMusicSubtitles ⟨none, none, none, none⟩ (.failed "m") (.failed "v") (.failed "r")
        false "o9" "s9" "m9" "v9" ⟨none, some "temp/p.mp4", some "temp/old_final.mp4"⟩
        [("temp/p.mp4", 3), ("temp/old_final.mp4", 8)]).2.1
      = [("temp/p.mp4", 3), ("temp/old_final.mp4", 8)]
    ∧ getFinalVideo ⟨none, some "temp/p.mp4", some "temp/old_final.mp4"⟩
        [("temp/p.mp4", 3), ("temp/old_final.mp4", 8)] = .ok "temp/old_final.mp4"
    ∧ getFinalVideo
        (addMusicSubtitles ⟨none, none, none, none⟩ (.failed "m") (.failed "v") (.failed "r")
          false "o9" "s9" "m9" "v9" ⟨none, some "temp/p.mp4", some "temp/old_final.mp4"⟩
          [("temp/p.mp4", 3), ("temp/old_final.mp4", 8)]).1
        (addMusicSubtitles ⟨none, none, none, none⟩ (.failed "m") (.failed "v") (.failed "r")
          false "o9" "s9" "m9" "v9" ⟨none, some "temp/p.mp4", some "temp/old_final.mp4"⟩
          [("temp/p.mp4", 3), ("temp/old_final.mp4", 8)]).2.1
      = .error "Final video not found" := by
  exact claim_C9_dangling_final_path ⟨none, none, none, none⟩ (.failed "m") (.failed "v")
    (.failed "r") false "o9" "s9" "m9" "v9"
    ⟨none, some "temp/p.mp4", some "temp/old_final.mp4"⟩
    [("temp/p.mp4", 3), ("temp/old_final.mp4", 8)] "temp/p.mp4" "temp/old_final.mp4"
    rfl (by decide) rfl rfl (by decide) (by decide)

theorem amsRespond_hasMusic (op : String) (amp : Option String) (st2 : ServerState)
    (fs5 : FS) (out : String) (sz : Nat) (hs : Bool)
    (h : (amsRespond op amp st2 fs5).2.2 = .ok out sz true hs) :
    ∃ mpath, amp = some mpath ∧ fsExists fs5 mpath = true
      ∧ (amsRespond op amp st2 fs5).2.1 = fs5 := by
  cases hlk : fsLookup fs5 op with
  | none => simp [amsRespond, hlk] at h
  | some s =>
    cases amp with
    | none => simp [amsRespond, hlk] at h
    | some mpath =>
      simp only [amsRespond, hlk] at h ⊢
      simp only [AMSResp.ok.injEq] at h
      exact ⟨mpath, rfl, h.2.2.1, by trivial⟩

theorem amsRunStage_hasMusic (run : AMSRun) (cd : Bool) (op sp mp : String)
    (mreq : Bool) (amp : Option String) (st2 : ServerState) (fs3 : FS)
    (out : String) (sz : Nat) (hs : Bool)
    (h : (amsRunStage run cd op sp mp mreq amp st2 fs3).2.2 = .ok out sz true hs) :
    ∃ mpath, amp = some mpath
      ∧ fsExists (amsRunStage run cd op sp mp mreq amp st2 fs3).2.1 mpath = true := by
  cases run with
  | failed m => simp [amsRunStage] at h
  | ended wrote =>
    simp only [amsRunStage] at h ⊢
    obtain ⟨mpath, hamp, hex, hfs⟩ := amsRespond_hasMusic _ _ _ _ _ _ _ h
    exact ⟨mpath, hamp, by rw [hfs]; exact hex⟩

/-- C10: a failed background-music download is non-fatal for the composite
stage: the stage proceeds without music, still succeeds, and reports
`hasMusic = false`; conversely `hasMusic = true` in a successful response is
possible only when music was requested, its download succeeded, and the music
file exists on disk at response time. -/
theorem claim_C10_music_optional :
    (∀ req videoDl cleanupDone idOut idSub idMusic idVideo st fs pv sub mid dmsg outSz,
      st.processedVideoPath = some pv →
      fsExists fs pv = true →
      jsOrStr req.srtSubtitles req.subtitleContent = some sub →
      req.googleDriveFileIDForMusic = some mid →
      req.videoUrl = none →
      (addMusicSubtitles req (.failed dmsg) videoDl (.ended (some outSz)) cleanupDone
          idOut idSub idMusic idVideo st fs).2.2
        = .ok ("temp/final_" ++ idOut ++ ".mp4") outSz false true)
    ∧ (∀ req musicDl videoDl run cleanupDone idOut idSub idMusic idVideo st fs out sz hs,
      (addMusicSubtitles req musicDl videoDl run cleanupDone
          idOut idSub idMusic idVideo st fs).2.2 = .ok out sz true hs →
      (∃ mid, req.googleDriveFileIDForMusic = some mid)
      ∧ (∃ msz, musicDl = .got msz)
      ∧ fsExists (addMusicSubtitles req musicDl videoDl run cleanupDone
          idOut idSub idMusic idVideo st fs).2.1
          ("temp/music_" ++ idMusic ++ ".mp3") = true) := by
  constructor
  · intro req videoDl cleanupDone idOut idSub idMusic idVideo st fs pv sub mid dmsg outSz
      hpv hex hsub hmid hvu
    have hsubne : ("temp/subtitles_" ++ idSub ++ ".srt")
        ≠ ("temp/final_" ++ idOut ++ ".mp4") :=
      concat3_ne "temp/subtitles_" idSub ".srt" "temp/final_" idOut ".mp4" 6
        (by decide) (by decide) (by decide)
    have hmusne : ("temp/music_" ++ idMusic ++ ".mp3")
        ≠ ("temp/final_" ++ idOut ++ ".mp4") :=
      concat3_ne "temp/music_" idMusic ".mp3" "temp/final_" idOut ".mp4" 6
        (by decide) (by decide) (by decide)
    have h1 : fsLookup (fsSet (fsSet fs ("temp/subtitles_" ++ idSub ++ ".srt") sub.length)
        ("temp/final_" ++ idOut ++ ".mp4") outSz) ("temp/final_" ++ idOut ++ ".mp4")
        = some outSz := fsLookup_fsSet_self _ _ _
    have h2 : fsLookup (fsRemove (fsRemove
        (fsSet (fsSet fs ("temp/subtitles_" ++ idSub ++ ".srt") sub.length)
          ("temp/final_" ++ idOut ++ ".mp4") outSz)
        ("temp/subtitles_" ++ idSub ++ ".srt")) ("temp/music_" ++ idMusic ++ ".mp3"))
        ("temp/final_" ++ idOut ++ ".mp4") = some outSz := by
      rw [fsLookup_fsRemove_ne _ _ _ hmusne, fsLookup_fsRemove_ne _ _ _ hsubne, h1]
    cases cleanupDone <;>
      simp [addMusicSubtitles, amsRunStage, amsRespond, hpv, hex, hsub, hmid, hvu, h1, h2]
  · intro req musicDl videoDl run cleanupDone idOut idSub idMusic idVideo st fs out sz hs h
    cases hpv : st.processedVideoPath with
    | none => simp [addMusicSubtitles, hpv] at h
    | some pv =>
      by_cases hex : fsExists fs pv = false
      · simp [addMusicSubtitles, hpv, hex] at h
      · cases hsub : jsOrStr req.srtSubtitles req.subtitleContent with
        | none => simp [addMusicSubtitles, hpv, hex, hsub] at h
        | some sub =>
          simp only [addMusicSubtitles, hpv, hsub] at h ⊢
          rw [if_neg hex] at h ⊢
          obtain ⟨mpath, hamp, hfse⟩ := amsRunStage_hasMusic _ _ _ _ _ _ _ _ _ _ _ _ h
          cases hmid : req.googleDriveFileIDForMusic with
          | none => simp only [hmid] at hamp; simp at hamp
          | some mid =>
            cases hmdl : musicDl with
            | failed m => simp only [hmid, hmdl] at hamp; simp at hamp
            | got msz =>
              simp only [hmid, hmdl] at hamp hfse ⊢
              cases hamp
              exact ⟨⟨mid, rfl⟩, ⟨msz, rfl⟩, hfse⟩

/-- C10 witness at concrete inputs: a failed music download still succeeds
with `hasMusic = false`, and a successful music download yields a response
whose music file is on disk. -/
theorem claim_C10_music_optional_witness :
    (addMusicSubtitles ⟨some "1", none, some "MID", none⟩ (.failed "dl") (.failed "v")
        (.ended (some 5)) false "oA" "sA" "mA" "vA"
        ⟨none, some "temp/p.mp4", none⟩ [("temp/p.mp4", 3)]).2.2
      = .ok "temp/final_oA.mp4" 5 false true
    ∧ ((∃ mid, (⟨some "1", none, some "MID", none⟩ : AMSReq).googleDriveFileIDForMusic
          = some mid)
       ∧ (∃ msz, DlOutcome.got 9 = DlOutcome.got msz)
       ∧ fsExists (addMusicSubtitles ⟨some "1", none, some "MID", none⟩ (.got 9)
          (.failed "v") (.ended (some 5)) false "oA" "sA" "mA" "vA"
          ⟨none, some "temp/p.mp4", none⟩ [("temp/p.mp4", 3)]).2.1
          ("temp/music_" ++ "mA" ++ ".mp3") = true) := by
  constructor
  · exact claim_C10_music_optional.1 ⟨some "1", none, some "MID", none⟩ (.failed "v") false
      "oA" "sA" "mA" "vA" ⟨none, some "temp/p.mp4", none⟩ [("temp/p.mp4", 3)]
      "temp/p.mp4" "1" "MID" "dl" 5 rfl (by decide) rfl rfl rfl
  · exact claim_C10_music_optional.2 ⟨some "1", none, some "MID", none⟩ (.got 9) (.failed "v")
      (.ended (some 5)) false "oA" "sA" "mA" "vA" ⟨none, some "temp/p.mp4", none⟩
      [("temp/p.mp4", 3)] "temp/final_oA.mp4" 5 true (by rfl)
